import Mathlib

/-!
Shallow embedding of the Readwise Reader API client
(`src/readwise/api.py`, `src/readwise/model.py`).

HTTP transport is modelled by scripted responses: each request-issuing
operation receives the list of successive responses the server would give to
the repeatedly (re-)issued request, and a pagination server is a function from
query parameters to such a response stream.  Every operation additionally
returns the trace of observable effects (HTTP requests issued and sleeps
performed), so the theorems can speak about how many requests are made and
how long the client waits.
-/

namespace Readwise

/-! ### Data model (src/readwise/model.py) -/

structure Tag where
  name : String
  type : String
  created : Int

/-- The wire type of `Document.published_date` is `int | str | None`. -/
inductive PublishedDate where
  | ofInt (value : Int)
  | ofStr (value : String)

structure Document where
  id : String
  url : String
  title : Option String
  author : Option String
  source : Option String
  category : String
  location : Option String
  tags : Option (List (String × Tag))
  site_name : Option String
  word_count : Option Int
  created_at : String
  updated_at : String
  notes : Option String
  published_date : Option PublishedDate
  summary : Option String
  image_url : Option String
  content : Option String
  source_url : Option String
  parent_id : Option String
  saved_at : String
  last_moved_at : String
  reading_progress : Option Float

structure GetResponse where
  count : Int
  next_page_cursor : Option String
  results : List Document

structure PostRequest where
  url : String
  html : Option String := none
  should_clean_html : Option Bool := none
  title : Option String := none
  author : Option String := none
  summary : Option String := none
  published_date : Option String := none
  image_url : Option String := none
  location : Option String := none
  saved_using : Option String := none
  tags : Option (List String) := none

structure PostResponse where
  id : String
  url : String

structure DeleteRequest where
  id : String

structure DeleteResponse where
  success : Bool
  message : Option String := none

structure UpdateRequest where
  id : String
  location : String

structure UpdateResponse where
  success : Bool
  message : Option String := none

/-! ### HTTP layer (src/readwise/api.py)

The exception classes of `api.py`, plus two model artifacts: `indexError`
stands for a Python `IndexError` escaping `results[0]`, `valueError` for a
Python `ValueError` raised by parameter validation, `noMoreResponses` and
`fuelExhausted` mark a scripted response stream or loop fuel running out
(neither is reachable in the situations the theorems describe). -/

inductive ReadwiseExc where
  | readwiseError (status_code : Nat) (response_body : String)
  | authenticationError (status_code : Nat) (response_body : String)
  | clientError (status_code : Nat) (response_body : String)
  | serverError (status_code : Nat) (response_body : String)
  | rateLimitError (status_code : Nat) (response_body : String) (retry_after : Option Nat)
  | valueError (message : String)
  | indexError
  | noMoreResponses
  | fuelExhausted
deriving DecidableEq

/-- Query parameters of the `list` endpoint, one optional field per key the
client ever places in its `params` dict. -/
structure GetParams where
  location : Option String := none
  category : Option String := none
  updatedAfter : Option String := none
  withHtmlContent : Option Bool := none
  tag : Option String := none
  limit : Option Int := none
  pageCursor : Option String := none
  withRawSourceUrl : Option Bool := none
  id : Option String := none
  url : Option String := none
deriving DecidableEq

/-- An HTTP response as the client observes it: the status code, the parsed
`Retry-After` header (`none` when the header is absent) and the raw text. -/
structure HttpResponse where
  status_code : Nat
  retry_after_header : Option Nat := none
  text : String := ""

/-- A response to the `list` endpoint; `body` is the decoded JSON payload,
which the client reads only on statuses it treats as decodable. -/
structure GetHttpResponse extends HttpResponse where
  body : GetResponse

/-- A response to the `save` endpoint; `body` is the decoded JSON payload,
`none` modelling a body whose decoding raises `ValueError`. -/
structure PostHttpResponse extends HttpResponse where
  body : Option PostResponse := none

/-- A response to the `delete` endpoint; `body` as for `PostHttpResponse`. -/
structure DeleteHttpResponse extends HttpResponse where
  body : Option DeleteResponse := none

/-- Observable effects of an operation: HTTP requests issued and sleeps. -/
inductive Event where
  | getRequest (params : GetParams)
  | postRequest (payload : PostRequest)
  | deleteRequest (payload : DeleteRequest)
  | updateRequest (payload : UpdateRequest)
  | sleep (seconds : Nat)

/-- Python truthiness of an optional string (`if s:`). -/
def truthyStr : Option String → Bool
  | none => false
  | some s => s != ""

/-- Python truthiness of an optional integer (`if n:`). -/
def truthyNat : Option Nat → Bool
  | none => false
  | some n => n != 0

/-- `ReadwiseReader._make_get_request`.  The scripted list holds the
successive responses the server gives to the repeatedly re-issued request. -/
def makeGetRequest (retry_on_429 : Bool) (params : GetParams) :
    List GetHttpResponse → Except ReadwiseExc GetResponse × List Event
  | [] => (.error .noMoreResponses, [])
  | r :: rest =>
    if r.status_code = 429 then
      let retry_after_seconds := r.retry_after_header
      if retry_on_429 && truthyNat retry_after_seconds then
        let next := makeGetRequest retry_on_429 params rest
        (next.1, .getRequest params :: .sleep (retry_after_seconds.getD 0) :: next.2)
      else
        (.error (.rateLimitError r.status_code r.text retry_after_seconds),
         [.getRequest params])
    else if 500 ≤ r.status_code then
      (.error (.serverError r.status_code r.text), [.getRequest params])
    else if 400 ≤ r.status_code then
      if r.status_code = 401 ∨ r.status_code = 403 then
        (.error (.authenticationError r.status_code r.text), [.getRequest params])
      else
        (.error (.clientError r.status_code r.text), [.getRequest params])
    else if 200 ≤ r.status_code then
      (.ok r.body, [.getRequest params])
    else
      (.error (.readwiseError r.status_code r.text), [.getRequest params])

/-- `ReadwiseReader._make_post_request`.  On 200/201 a decodable body gives
`(True, body)`; a body failing to decode, or any other non-429 status, gives
the backward-compatible `(False, None)` tuple instead of raising. -/
def makePostRequest (retry_on_429 : Bool) (payload : PostRequest) :
    List PostHttpResponse → Except ReadwiseExc (Bool × Option PostResponse) × List Event
  | [] => (.error .noMoreResponses, [])
  | r :: rest =>
    if r.status_code = 429 then
      let retry_after_seconds := r.retry_after_header
      if retry_on_429 && truthyNat retry_after_seconds then
        let next := makePostRequest retry_on_429 payload rest
        (next.1, .postRequest payload :: .sleep (retry_after_seconds.getD 0) :: next.2)
      else
        (.error (.rateLimitError r.status_code r.text retry_after_seconds),
         [.postRequest payload])
    else if r.status_code = 200 ∨ r.status_code = 201 then
      match r.body with
      | some b => (.ok (true, some b), [.postRequest payload])
      | none => (.ok (false, none), [.postRequest payload])
    else
      (.ok (false, none), [.postRequest payload])

/-- `ReadwiseReader._make_delete_request`.  Status 204 has no body and is
mapped to a synthesized success payload; status 200 decodes the body. -/
def makeDeleteRequest (retry_on_429 : Bool) (payload : DeleteRequest) :
    List DeleteHttpResponse → Except ReadwiseExc (Bool × Option DeleteResponse) × List Event
  | [] => (.error .noMoreResponses, [])
  | r :: rest =>
    if r.status_code = 429 then
      let retry_after_seconds := r.retry_after_header
      if retry_on_429 && truthyNat retry_after_seconds then
        let next := makeDeleteRequest retry_on_429 payload rest
        (next.1, .deleteRequest payload :: .sleep (retry_after_seconds.getD 0) :: next.2)
      else
        (.error (.rateLimitError r.status_code r.text retry_after_seconds),
         [.deleteRequest payload])
    else if r.status_code = 200 ∨ r.status_code = 204 then
      if r.status_code = 204 then
        (.ok (true, some { success := true, message := some "Document deleted successfully" }),
         [.deleteRequest payload])
      else
        match r.body with
        | some b => (.ok (true, some b), [.deleteRequest payload])
        | none => (.ok (false, none), [.deleteRequest payload])
    else
      (.ok (false, none), [.deleteRequest payload])

/-- `ReadwiseReader._make_update_request`.  The body is never decoded: the
client synthesizes an `UpdateResponse` from the status code alone. -/
def makeUpdateRequest (retry_on_429 : Bool) (payload : UpdateRequest) :
    List HttpResponse → Except ReadwiseExc (Bool × UpdateResponse) × List Event
  | [] => (.error .noMoreResponses, [])
  | r :: rest =>
    if r.status_code = 429 then
      let retry_after_seconds := r.retry_after_header
      if retry_on_429 && truthyNat retry_after_seconds then
        let next := makeUpdateRequest retry_on_429 payload rest
        (next.1, .updateRequest payload :: .sleep (retry_after_seconds.getD 0) :: next.2)
      else
        (.error (.rateLimitError r.status_code r.text retry_after_seconds),
         [.updateRequest payload])
    else if r.status_code = 200 then
      (.ok (true, { success := true, message := some "Document updated successfully" }),
       [.updateRequest payload])
    else
      (.ok (false, { success := false,
                     message := some ("Update failed: " ++ toString r.status_code) }),
       [.updateRequest payload])

/-! ### Parameter validation and pagination (`get_documents`, `iter_documents`) -/

/-- The location enum checked by `get_documents` and `iter_documents`. -/
def locationAllowed (s : String) : Bool :=
  s == "new" || s == "later" || s == "shortlist" || s == "archive" || s == "feed"

/-- The category enum checked by `get_documents`, `iter_documents` and
`save_document`. -/
def categoryAllowed (s : String) : Bool :=
  s == "article" || s == "email" || s == "rss" || s == "highlight" || s == "note" ||
  s == "pdf" || s == "epub" || s == "tweet" || s == "video"

/-- The narrower location enum checked by `save_document` (no `shortlist`). -/
def saveLocationAllowed (s : String) : Bool :=
  s == "new" || s == "later" || s == "archive" || s == "feed"

/-- `1 <= limit <= 100`. -/
def limitOk (limit : Int) : Bool :=
  1 ≤ limit && limit ≤ 100

/-- Arguments of `ReadwiseReader.get_documents`; `updated_after` is carried as
its `isoformat()` string (an actual `datetime` argument is always truthy). -/
structure GetDocumentsArgs where
  location : Option String := none
  category : Option String := none
  updated_after : Option String := none
  withHtmlContent : Bool := false
  tag : Option String := none
  limit : Option Int := none
  page_cursor : Option String := none
  with_raw_source_url : Bool := false

/-- The parameter-building and validation prefix of `get_documents`: each
check is performed in source order, and the resulting `params` dict holds
exactly the keys the source sets. -/
def buildGetParams (a : GetDocumentsArgs) : Except ReadwiseExc GetParams :=
  if truthyStr a.location && !locationAllowed (a.location.getD "") then
    .error (.valueError ("Parameter location cannot be of value " ++ a.location.getD ""))
  else if truthyStr a.category && !categoryAllowed (a.category.getD "") then
    .error (.valueError ("Parameter category cannot be of value " ++ a.category.getD ""))
  else if a.limit.isSome && !limitOk (a.limit.getD 0) then
    .error (.valueError ("Parameter limit must be between 1 and 100, got " ++
      toString (a.limit.getD 0)))
  else
    .ok { location := if truthyStr a.location then a.location else none
          category := if truthyStr a.category then a.category else none
          updatedAfter := a.updated_after
          withHtmlContent := if a.withHtmlContent then some true else none
          tag := if truthyStr a.tag then a.tag else none
          limit := a.limit
          pageCursor := if truthyStr a.page_cursor then a.page_cursor else none
          withRawSourceUrl := if a.with_raw_source_url then some true else none }

/-- The auto-pagination loop of `get_documents` (the `while (response := ...)`
loop): accumulate each page, follow a truthy `next_page_cursor`, and include
the results of the final cursor-less page.  `fuel` bounds the number of
iterations; exhausting it is a model artifact never reached in the theorems. -/
def getDocumentsLoop (retry_on_429 : Bool) (server : GetParams → List GetHttpResponse) :
    Nat → GetParams → List Document → Except ReadwiseExc (List Document) × List Event
  | 0, _, _ => (.error .fuelExhausted, [])
  | fuel + 1, params, results =>
    match makeGetRequest retry_on_429 params (server params) with
    | (.error e, evs) => (.error e, evs)
    | (.ok response, evs) =>
      if truthyStr response.next_page_cursor then
        let next := getDocumentsLoop retry_on_429 server fuel
          { params with pageCursor := some (response.next_page_cursor.getD "") }
          (results ++ response.results)
        (next.1, evs ++ next.2)
      else
        (.ok (results ++ response.results), evs)

/-- `ReadwiseReader.get_documents`. -/
def getDocuments (a : GetDocumentsArgs) (retry_on_429 : Bool)
    (server : GetParams → List GetHttpResponse) (fuel : Nat) :
    Except ReadwiseExc (List Document) × List Event :=
  match buildGetParams a with
  | .error e => (.error e, [])
  | .ok params =>
    if a.limit.isSome then
      match makeGetRequest retry_on_429 params (server params) with
      | (.error e, evs) => (.error e, evs)
      | (.ok response, evs) => (.ok response.results, evs)
    else
      getDocumentsLoop retry_on_429 server fuel params []

/-- Arguments of `ReadwiseReader.iter_documents` (no `limit`, no
`page_cursor`). -/
structure IterDocumentsArgs where
  location : Option String := none
  category : Option String := none
  updated_after : Option String := none
  withHtmlContent : Bool := false
  tag : Option String := none
  with_raw_source_url : Bool := false

/-- The parameter-building and validation prefix of `iter_documents`. -/
def buildIterParams (a : IterDocumentsArgs) : Except ReadwiseExc GetParams :=
  if truthyStr a.location && !locationAllowed (a.location.getD "") then
    .error (.valueError ("Parameter location cannot be of value " ++ a.location.getD ""))
  else if truthyStr a.category && !categoryAllowed (a.category.getD "") then
    .error (.valueError ("Parameter category cannot be of value " ++ a.category.getD ""))
  else
    .ok { location := if truthyStr a.location then a.location else none
          category := if truthyStr a.category then a.category else none
          updatedAfter := a.updated_after
          withHtmlContent := if a.withHtmlContent then some true else none
          tag := if truthyStr a.tag then a.tag else none
          withRawSourceUrl := if a.with_raw_source_url then some true else none }

/-- The generator loop of `iter_documents`: each page's results are yielded
before the cursor test, and the loop stops at the first page whose cursor is
not truthy.  The second component collects the yielded documents in order. -/
def iterDocumentsLoop (retry_on_429 : Bool) (server : GetParams → List GetHttpResponse) :
    Nat → GetParams → Except ReadwiseExc Unit × List Document × List Event
  | 0, _ => (.error .fuelExhausted, [], [])
  | fuel + 1, params =>
    match makeGetRequest retry_on_429 params (server params) with
    | (.error e, evs) => (.error e, [], evs)
    | (.ok response, evs) =>
      if truthyStr response.next_page_cursor then
        let next := iterDocumentsLoop retry_on_429 server fuel
          { params with pageCursor := some (response.next_page_cursor.getD "") }
        (next.1, response.results ++ next.2.1, evs ++ next.2.2)
      else
        (.ok (), response.results, evs)

/-- `ReadwiseReader.iter_documents`, run to completion. -/
def iterDocuments (a : IterDocumentsArgs) (retry_on_429 : Bool)
    (server : GetParams → List GetHttpResponse) (fuel : Nat) :
    Except ReadwiseExc Unit × List Document × List Event :=
  match buildIterParams a with
  | .error e => (.error e, [], [])
  | .ok params => iterDocumentsLoop retry_on_429 server fuel params

/-- `get_documents` argument record equivalent to an `iter_documents` call
with the same filters: no limit and no starting cursor. -/
def iterToGetArgs (a : IterDocumentsArgs) : GetDocumentsArgs :=
  { location := a.location
    category := a.category
    updated_after := a.updated_after
    withHtmlContent := a.withHtmlContent
    tag := a.tag
    limit := none
    page_cursor := none
    with_raw_source_url := a.with_raw_source_url }

/-- `ReadwiseReader.get_document_by_id`: a list request with the sole
parameter `id`; `results[0]` is read guarded only by `count == 1`, so an
ill-formed response with `count == 1` and empty `results` raises a Python
`IndexError`, modelled by `ReadwiseExc.indexError`. -/
def getDocumentById (docId : String) (retry_on_429 : Bool)
    (server : GetParams → List GetHttpResponse) :
    Except ReadwiseExc (Option Document) × List Event :=
  let params : GetParams := { id := some docId }
  match makeGetRequest retry_on_429 params (server params) with
  | (.error e, evs) => (.error e, evs)
  | (.ok response, evs) =>
    if response.count = 1 then
      match response.results with
      | [] => (.error .indexError, evs)
      | d :: _ => (.ok (some d), evs)
    else
      (.ok none, evs)

/-- Arguments of `ReadwiseReader.save_document`. -/
structure SaveDocumentArgs where
  url : Option String := none
  html : Option String := none
  title : Option String := none
  author : Option String := none
  summary : Option String := none
  published_date : Option String := none
  image_url : Option String := none
  location : Option String := none
  category : Option String := none
  saved_using : Option String := none
  tags : Option (List String) := none
  notes : Option String := none
  should_clean_html : Bool := false

/-- `ReadwiseReader.save_document`.  Validation in source order; the payload
is then built as a `PostRequest`, whose pydantic model has no `category` or
`notes` field (both arguments are silently dropped on the wire) and whose
`url` field rejects `None` (the html-only path fails pydantic validation,
acknowledged by a `type: ignore` in the source). -/
def saveDocument (a : SaveDocumentArgs) (retry_on_429 : Bool)
    (responses : List PostHttpResponse) :
    Except ReadwiseExc (Bool × Option PostResponse) × List Event :=
  if !truthyStr a.url && !truthyStr a.html then
    (.error (.valueError "Either url or html must be provided"), [])
  else if a.should_clean_html && !truthyStr a.html then
    (.error (.valueError "should_clean_html can only be used when html is provided"), [])
  else if truthyStr a.location && !saveLocationAllowed (a.location.getD "") then
    (.error (.valueError ("Parameter location cannot be of value " ++ a.location.getD "")), [])
  else if truthyStr a.category && !categoryAllowed (a.category.getD "") then
    (.error (.valueError ("Parameter category cannot be of value " ++ a.category.getD "")), [])
  else
    match a.url with
    | none => (.error (.valueError "PostRequest field url must be a string"), [])
    | some u =>
      let payload : PostRequest :=
        { url := u
          html := a.html
          should_clean_html := if a.html.isSome then some a.should_clean_html else none
          title := a.title
          author := a.author
          summary := a.summary
          published_date := a.published_date
          image_url := a.image_url
          location := a.location
          saved_using := a.saved_using
          tags := a.tags }
      makePostRequest retry_on_429 payload responses

/-! ### Helper lemmas -/

/-- A plain successful page: status 200, no rate-limit header. -/
def okPage (g : GetResponse) : GetHttpResponse :=
  { status_code := 200, retry_after_header := none, text := "", body := g }

theorem makeGetRequest_success (retry_on_429 : Bool) (params : GetParams)
    (r : GetHttpResponse) (rest : List GetHttpResponse)
    (h200 : 200 ≤ r.status_code) (h400 : r.status_code < 400) :
    makeGetRequest retry_on_429 params (r :: rest) = (.ok r.body, [.getRequest params]) := by
  have h429 : ¬ r.status_code = 429 := by omega
  have h500 : ¬ 500 ≤ r.status_code := by omega
  have h400n : ¬ 400 ≤ r.status_code := by omega
  simp only [makeGetRequest]
  rw [if_neg h429, if_neg h500, if_neg h400n, if_pos h200]

theorem makeGetRequest_okPage (retry_on_429 : Bool) (params : GetParams)
    (g : GetResponse) (rest : List GetHttpResponse) :
    makeGetRequest retry_on_429 params (okPage g :: rest) = (.ok g, [.getRequest params]) :=
  makeGetRequest_success retry_on_429 params (okPage g) rest (by simp [okPage]) (by simp [okPage])

/-- The pages a paginating call starting from `params` walks through: each
request is answered by a 200 page, every page but the last reports a truthy
continuation cursor, and the following request differs from the previous one
exactly in `pageCursor`. -/
inductive PageChain (server : GetParams → List GetHttpResponse) :
    GetParams → List GetResponse → Prop where
  | last (params : GetParams) (g : GetResponse) (rest : List GetHttpResponse)
      (hresp : server params = okPage g :: rest)
      (hcursor : truthyStr g.next_page_cursor = false) :
      PageChain server params [g]
  | step (params : GetParams) (g : GetResponse) (rest : List GetHttpResponse)
      (gs : List GetResponse)
      (hresp : server params = okPage g :: rest)
      (hcursor : truthyStr g.next_page_cursor = true)
      (hnext : PageChain server
        { params with pageCursor := some (g.next_page_cursor.getD "") } gs) :
      PageChain server params (g :: gs)

theorem getDocumentsLoop_chain (retry_on_429 : Bool)
    (server : GetParams → List GetHttpResponse)
    (pages : List GetResponse) (params : GetParams) (fuel : Nat) (acc : List Document)
    (hchain : PageChain server params pages) (hfuel : pages.length ≤ fuel) :
    ∃ evs, getDocumentsLoop retry_on_429 server fuel params acc =
        (.ok (acc ++ (pages.map GetResponse.results).flatten), evs) ∧
      evs.length = pages.length ∧ ∀ e ∈ evs, ∃ q, e = Event.getRequest q := by
  induction hchain generalizing fuel acc with
  | last p g rest hresp hcursor =>
    cases fuel with
    | zero => simp at hfuel
    | succ fuel =>
      refine ⟨[Event.getRequest p], ?_, by simp, by simp⟩
      simp [getDocumentsLoop, hresp, makeGetRequest_okPage, hcursor]
  | step p g rest gs hresp hcursor hnext ih =>
    cases fuel with
    | zero => simp at hfuel
    | succ fuel =>
      obtain ⟨evs, h1, h2, h3⟩ := ih fuel (acc ++ g.results) (by simpa using hfuel)
      refine ⟨Event.getRequest p :: evs, ?_, by simp [h2], ?_⟩
      · simp [getDocumentsLoop, hresp, makeGetRequest_okPage, hcursor, h1]
      · intro e he
        rcases List.mem_cons.mp he with h | h
        · exact ⟨p, h⟩
        · exact h3 e h

/-- C1: for every call of `get_documents` with no limit, given a sequence of
server pages each carrying a continuation cursor except the last, the client
issues exactly one request per page and returns the concatenation of each
page's results in page order, including the results of the final cursor-less
page. -/
theorem get_documents_auto_pagination
    (a : GetDocumentsArgs) (retry_on_429 : Bool)
    (server : GetParams → List GetHttpResponse) (fuel : Nat)
    (pages : List GetResponse) (params : GetParams)
    (hlimit : a.limit = none)
    (hparams : buildGetParams a = .ok params)
    (hchain : PageChain server params pages)
    (hfuel : pages.length ≤ fuel) :
    ∃ evs, getDocuments a retry_on_429 server fuel =
        (.ok ((pages.map GetResponse.results).flatten), evs) ∧
      evs.length = pages.length ∧ ∀ e ∈ evs, ∃ q, e = Event.getRequest q := by
  obtain ⟨evs, h1, h2, h3⟩ :=
    getDocumentsLoop_chain retry_on_429 server pages params fuel [] hchain hfuel
  refine ⟨evs, ?_, h2, h3⟩
  simp [getDocuments, hparams, hlimit, h1]

/-- C5: for every limit in [1,100], `get_documents(limit=limit)` issues
exactly one HTTP request and returns that single page's results as-is (hence
at most `limit` documents whenever the server honours the limit parameter),
regardless of whether the page carries a continuation cursor. -/
theorem get_documents_with_limit_single_page
    (a : GetDocumentsArgs) (l : Int) (retry_on_429 : Bool)
    (server : GetParams → List GetHttpResponse) (fuel : Nat)
    (params : GetParams) (r : GetHttpResponse) (rest : List GetHttpResponse)
    (hlimit : a.limit = some l) (_hlo : 1 ≤ l) (_hhi : l ≤ 100)
    (hparams : buildGetParams a = .ok params)
    (hresp : server params = r :: rest)
    (h200 : 200 ≤ r.status_code) (h300 : r.status_code < 300) :
    getDocuments a retry_on_429 server fuel = (.ok r.body.results, [.getRequest params]) ∧
      ((r.body.results.length : Int) ≤ l → ∃ docs evs,
        getDocuments a retry_on_429 server fuel = (.ok docs, evs) ∧ (docs.length : Int) ≤ l) := by
  have hs := makeGetRequest_success retry_on_429 params r rest h200 (by omega)
  have hmain : getDocuments a retry_on_429 server fuel =
      (.ok r.body.results, [.getRequest params]) := by
    simp [getDocuments, hparams, hlimit, hresp, hs]
  exact ⟨hmain, fun hlen => ⟨r.body.results, [.getRequest params], hmain, hlen⟩⟩

/-- C6: for every limit outside [1,100], `get_documents` fails with a
validation error (a Python `ValueError`) before any HTTP request is issued:
the event trace is empty. -/
theorem get_documents_invalid_limit
    (a : GetDocumentsArgs) (l : Int) (retry_on_429 : Bool)
    (server : GetParams → List GetHttpResponse) (fuel : Nat)
    (hlimit : a.limit = some l) (hbad : l < 1 ∨ 100 < l) :
    ∃ msg, getDocuments a retry_on_429 server fuel = (.error (.valueError msg), []) := by
  cases hloc : truthyStr a.location && !locationAllowed (a.location.getD "") with
  | true =>
    refine ⟨"Parameter location cannot be of value " ++ a.location.getD "", ?_⟩
    simp [getDocuments, buildGetParams, hloc]
  | false =>
    cases hcat : truthyStr a.category && !categoryAllowed (a.category.getD "") with
    | true =>
      refine ⟨"Parameter category cannot be of value " ++ a.category.getD "", ?_⟩
      simp [getDocuments, buildGetParams, hloc, hcat]
    | false =>
      have hlim : (a.limit.isSome && !limitOk (a.limit.getD 0)) = true := by
        rw [hlimit]
        simp [limitOk]
        omega
      refine ⟨"Parameter limit must be between 1 and 100, got " ++ toString (a.limit.getD 0), ?_⟩
      simp [getDocuments, buildGetParams, hloc, hcat, hlim]

/-- C7: `get_document_by_id` returns the sole document exactly when the
response's reported count equals 1, and returns absent both when the count is
0 and when the count is 2 or more (for a well-formed page whose count matches
its result list). -/
theorem get_document_by_id_count_discipline
    (docId : String) (retry_on_429 : Bool)
    (server : GetParams → List GetHttpResponse)
    (g : GetResponse) (rest : List GetHttpResponse)
    (hresp : server { id := some docId } = okPage g :: rest)
    (hwf : g.count = (g.results.length : Int)) :
    (g.count = 1 → ∃ d, g.results = [d] ∧
      getDocumentById docId retry_on_429 server =
        (.ok (some d), [.getRequest { id := some docId }])) ∧
    (g.count = 0 → getDocumentById docId retry_on_429 server =
      (.ok none, [.getRequest { id := some docId }])) ∧
    (2 ≤ g.count → getDocumentById docId retry_on_429 server =
      (.ok none, [.getRequest { id := some docId }])) := by
  refine ⟨?_, ?_, ?_⟩
  · intro h1
    have hlen : g.results.length = 1 := by omega
    obtain ⟨d, hd⟩ := List.length_eq_one.mp hlen
    refine ⟨d, hd, ?_⟩
    simp [getDocumentById, hresp, makeGetRequest_okPage, h1, hd]
  · intro h0
    have hne : ¬ g.count = 1 := by omega
    simp [getDocumentById, hresp, makeGetRequest_okPage, hne]
  · intro h2
    have hne : ¬ g.count = 1 := by omega
    simp [getDocumentById, hresp, makeGetRequest_okPage, hne]

/-- C9: `get_document_by_id` reads `results[0]` guarded only by the reported
count; when the count field matches the length of `results` the indexing is
in bounds (no `IndexError` can arise), and without that precondition the
concrete response with `count = 1` and empty `results` makes the access out
of bounds. -/
theorem get_document_by_id_indexing :
    (∀ (docId : String) (retry_on_429 : Bool)
      (server : GetParams → List GetHttpResponse)
      (g : GetResponse) (rest : List GetHttpResponse),
      server { id := some docId } = okPage g :: rest →
      g.count = (g.results.length : Int) →
      (getDocumentById docId retry_on_429 server).1 ≠ .error .indexError) ∧
    getDocumentById "doc-1" false
      (fun _ => [okPage { count := 1, next_page_cursor := none, results := [] }]) =
      (.error .indexError, [.getRequest { id := some "doc-1" }]) := by
  constructor
  · intro docId retry_on_429 server g rest hresp hwf
    by_cases h1 : g.count = 1
    · have hlen : g.results.length = 1 := by omega
      obtain ⟨d, hd⟩ := List.length_eq_one.mp hlen
      simp [getDocumentById, hresp, makeGetRequest_okPage, h1, hd]
    · simp [getDocumentById, hresp, makeGetRequest_okPage, h1]
  · rfl

theorem buildIterParams_eq_buildGetParams (a : IterDocumentsArgs) :
    buildIterParams a = buildGetParams (iterToGetArgs a) := by
  simp [buildIterParams, buildGetParams, iterToGetArgs, truthyStr]

theorem iterDocumentsLoop_chain (retry_on_429 : Bool)
    (server : GetParams → List GetHttpResponse)
    (pages : List GetResponse) (params : GetParams) (fuel : Nat)
    (hchain : PageChain server params pages) (hfuel : pages.length ≤ fuel) :
    ∃ evs, iterDocumentsLoop retry_on_429 server fuel params =
      (.ok (), (pages.map GetResponse.results).flatten, evs) := by
  induction hchain generalizing fuel with
  | last p g rest hresp hcursor =>
    cases fuel with
    | zero => simp at hfuel
    | succ fuel =>
      refine ⟨[Event.getRequest p], ?_⟩
      simp [iterDocumentsLoop, hresp, makeGetRequest_okPage, hcursor]
  | step p g rest gs hresp hcursor hnext ih =>
    cases fuel with
    | zero => simp at hfuel
    | succ fuel =>
      obtain ⟨evs, h1⟩ := ih fuel (by simpa using hfuel)
      refine ⟨Event.getRequest p :: evs, ?_⟩
      simp [iterDocumentsLoop, hresp, makeGetRequest_okPage, hcursor, h1]

/-- C10: for every choice of filter parameters and every sequence of server
pages, the documents yielded by `iter_documents` equal, element for element
and in order, the list returned by `get_documents` with the same filters and
no limit: both follow `next_page_cursor` from page to page and stop at the
first page without a cursor. -/
theorem iter_documents_matches_get_documents
    (a : IterDocumentsArgs) (retry_on_429 : Bool)
    (server : GetParams → List GetHttpResponse) (fuel : Nat)
    (pages : List GetResponse) (params : GetParams)
    (hparams : buildIterParams a = .ok params)
    (hchain : PageChain server params pages)
    (hfuel : pages.length ≤ fuel) :
    ∃ docs evs evs2,
      iterDocuments a retry_on_429 server fuel = (.ok (), docs, evs) ∧
      getDocuments (iterToGetArgs a) retry_on_429 server fuel = (.ok docs, evs2) := by
  obtain ⟨evs, h1⟩ :=
    iterDocumentsLoop_chain retry_on_429 server pages params fuel hchain hfuel
  obtain ⟨evs2, h2, _, _⟩ :=
    getDocumentsLoop_chain retry_on_429 server pages params fuel [] hchain hfuel
  have hg : buildGetParams (iterToGetArgs a) = .ok params := by
    rw [← buildIterParams_eq_buildGetParams]; exact hparams
  refine ⟨(pages.map GetResponse.results).flatten, evs, evs2, ?_, ?_⟩
  · simp [iterDocuments, hparams, h1]
  · simp [getDocuments, hg, h2, show (iterToGetArgs a).limit = none from rfl]

/-- An empty successful list page, used as a placeholder body. -/
def emptyPage : GetResponse :=
  { count := 0, next_page_cursor := none, results := [] }

/-- C2 counterexample: the server responds 429 carrying the retry-after
duration 0 and a successful response is available next, yet with retry opted
in the client raises `ReadwiseRateLimitError` carrying `retry_after = 0` and
issues no second request, instead of sleeping 0 and re-issuing (the code
guards the retry on Python truthiness of the duration, so 0 is treated like
an absent header). -/
theorem rate_limit_zero_retry_after_counterexample :
    makeGetRequest true {}
        [{ status_code := 429, retry_after_header := some 0, text := "slow down",
           body := emptyPage },
         okPage emptyPage] =
      (.error (.rateLimitError 429 "slow down" (some 0)), [.getRequest {}]) := by
  rfl

/-- C2 (amended): for every request-issuing operation, when the server
responds 429: if the caller opted into automatic retry and the retry-after
duration is present and positive, the client sleeps for that duration and
re-issues the exact same request, returning the eventual outcome; otherwise —
the caller did not opt in, or the duration is absent or zero — it raises a
`ReadwiseRateLimitError` carrying the retry-after duration and issues no
second request. -/
theorem rate_limit_handling (n : Nat) (hn : 0 < n) :
    (∀ (params : GetParams) (body : GetResponse) (text : String)
       (rest : List GetHttpResponse),
      makeGetRequest true params
          ({ status_code := 429, retry_after_header := some n, text := text,
             body := body } :: rest) =
        ((makeGetRequest true params rest).1,
         .getRequest params :: .sleep n :: (makeGetRequest true params rest).2)) ∧
    (∀ (retry_on_429 : Bool) (params : GetParams) (body : GetResponse) (text : String)
       (ra : Option Nat) (rest : List GetHttpResponse),
      retry_on_429 = false ∨ ra = none ∨ ra = some 0 →
      makeGetRequest retry_on_429 params
          ({ status_code := 429, retry_after_header := ra, text := text,
             body := body } :: rest) =
        (.error (.rateLimitError 429 text ra), [.getRequest params])) ∧
    (∀ (payload : PostRequest) (body : Option PostResponse) (text : String)
       (rest : List PostHttpResponse),
      makePostRequest true payload
          ({ status_code := 429, retry_after_header := some n, text := text,
             body := body } :: rest) =
        ((makePostRequest true payload rest).1,
         .postRequest payload :: .sleep n :: (makePostRequest true payload rest).2)) ∧
    (∀ (retry_on_429 : Bool) (payload : PostRequest) (body : Option PostResponse)
       (text : String) (ra : Option Nat) (rest : List PostHttpResponse),
      retry_on_429 = false ∨ ra = none ∨ ra = some 0 →
      makePostRequest retry_on_429 payload
          ({ status_code := 429, retry_after_header := ra, text := text,
             body := body } :: rest) =
        (.error (.rateLimitError 429 text ra), [.postRequest payload])) ∧
    (∀ (payload : DeleteRequest) (body : Option DeleteResponse) (text : String)
       (rest : List DeleteHttpResponse),
      makeDeleteRequest true payload
          ({ status_code := 429, retry_after_header := some n, text := text,
             body := body } :: rest) =
        ((makeDeleteRequest true payload rest).1,
         .deleteRequest payload :: .sleep n :: (makeDeleteRequest true payload rest).2)) ∧
    (∀ (retry_on_429 : Bool) (payload : DeleteRequest) (body : Option DeleteResponse)
       (text : String) (ra : Option Nat) (rest : List DeleteHttpResponse),
      retry_on_429 = false ∨ ra = none ∨ ra = some 0 →
      makeDeleteRequest retry_on_429 payload
          ({ status_code := 429, retry_after_header := ra, text := text,
             body := body } :: rest) =
        (.error (.rateLimitError 429 text ra), [.deleteRequest payload])) ∧
    (∀ (payload : UpdateRequest) (text : String) (rest : List HttpResponse),
      makeUpdateRequest true payload
          ({ status_code := 429, retry_after_header := some n, text := text } :: rest) =
        ((makeUpdateRequest true payload rest).1,
         .updateRequest payload :: .sleep n :: (makeUpdateRequest true payload rest).2)) ∧
    (∀ (retry_on_429 : Bool) (payload : UpdateRequest) (text : String)
       (ra : Option Nat) (rest : List HttpResponse),
      retry_on_429 = false ∨ ra = none ∨ ra = some 0 →
      makeUpdateRequest retry_on_429 payload
          ({ status_code := 429, retry_after_header := ra, text := text } :: rest) =
        (.error (.rateLimitError 429 text ra), [.updateRequest payload])) := by
  have hne : (n != 0) = true := by simpa using hn.ne'
  refine ⟨?_, ?_, ?_, ?_, ?_, ?_, ?_, ?_⟩
  · intro params body text rest
    simp [makeGetRequest, truthyNat, hne]
  · rintro retry_on_429 params body text ra rest (h | h | h) <;> subst h <;>
      simp [makeGetRequest, truthyNat]
  · intro payload body text rest
    simp [makePostRequest, truthyNat, hne]
  · rintro retry_on_429 payload body text ra rest (h | h | h) <;> subst h <;>
      simp [makePostRequest, truthyNat]
  · intro payload body text rest
    simp [makeDeleteRequest, truthyNat, hne]
  · rintro retry_on_429 payload body text ra rest (h | h | h) <;> subst h <;>
      simp [makeDeleteRequest, truthyNat]
  · intro payload text rest
    simp [makeUpdateRequest, truthyNat, hne]
  · rintro retry_on_429 payload text ra rest (h | h | h) <;> subst h <;>
      simp [makeUpdateRequest, truthyNat]

/-- C3 counterexample: a response with status 300 is decoded into the typed
result although 300 is outside the 200–299 success range (the code decodes on
every status in 200–399). -/
theorem get_request_decodes_at_300_counterexample :
    (makeGetRequest false {}
        [{ status_code := 300, retry_after_header := none, text := "",
           body := emptyPage }]).1 = .ok emptyPage ∧
      ¬ (200 ≤ 300 ∧ 300 ≤ 299) := by
  exact ⟨rfl, by omega⟩

/-- C3 (amended): for every list/get/search request and every non-429 status:
status ≥ 500 raises a server error; status 401 or 403 raises an
authentication error; any other status in 400–499 raises a client error; a
status below 200 raises the base error; and the response body is decoded into
the typed result exactly when the status is in the 200–399 range (not only
200–299: the code accepts any status below 400 once the error ranges are
excluded). -/
theorem get_request_status_dispatch (retry_on_429 : Bool) (params : GetParams)
    (r : GetHttpResponse) (h429 : r.status_code ≠ 429) :
    (500 ≤ r.status_code →
      makeGetRequest retry_on_429 params [r] =
        (.error (.serverError r.status_code r.text), [.getRequest params])) ∧
    ((r.status_code = 401 ∨ r.status_code = 403) →
      makeGetRequest retry_on_429 params [r] =
        (.error (.authenticationError r.status_code r.text), [.getRequest params])) ∧
    (400 ≤ r.status_code → r.status_code < 500 →
      r.status_code ≠ 401 → r.status_code ≠ 403 →
      makeGetRequest retry_on_429 params [r] =
        (.error (.clientError r.status_code r.text), [.getRequest params])) ∧
    (r.status_code < 200 →
      makeGetRequest retry_on_429 params [r] =
        (.error (.readwiseError r.status_code r.text), [.getRequest params])) ∧
    ((makeGetRequest retry_on_429 params [r]).1 = .ok r.body ↔
      200 ≤ r.status_code ∧ r.status_code < 400) := by
  have hserver : 500 ≤ r.status_code →
      makeGetRequest retry_on_429 params [r] =
        (.error (.serverError r.status_code r.text), [.getRequest params]) := by
    intro h
    simp only [makeGetRequest]
    rw [if_neg h429, if_pos h]
  have hauth : (r.status_code = 401 ∨ r.status_code = 403) →
      makeGetRequest retry_on_429 params [r] =
        (.error (.authenticationError r.status_code r.text), [.getRequest params]) := by
    intro h
    simp only [makeGetRequest]
    rw [if_neg h429, if_neg (by omega : ¬ 500 ≤ r.status_code),
      if_pos (by omega : 400 ≤ r.status_code), if_pos h]
  have hclient : 400 ≤ r.status_code → r.status_code < 500 →
      r.status_code ≠ 401 → r.status_code ≠ 403 →
      makeGetRequest retry_on_429 params [r] =
        (.error (.clientError r.status_code r.text), [.getRequest params]) := by
    intro h400 h500 h401 h403
    simp only [makeGetRequest]
    rw [if_neg h429, if_neg (by omega : ¬ 500 ≤ r.status_code), if_pos h400,
      if_neg (by tauto : ¬ (r.status_code = 401 ∨ r.status_code = 403))]
  have hlow : r.status_code < 200 →
      makeGetRequest retry_on_429 params [r] =
        (.error (.readwiseError r.status_code r.text), [.getRequest params]) := by
    intro h
    simp only [makeGetRequest]
    rw [if_neg h429, if_neg (by omega : ¬ 500 ≤ r.status_code),
      if_neg (by omega : ¬ 400 ≤ r.status_code),
      if_neg (by omega : ¬ 200 ≤ r.status_code)]
  refine ⟨hserver, hauth, hclient, hlow, ?_, ?_⟩
  · intro h
    rcases Nat.lt_or_ge r.status_code 200 with hlt | hge
    · rw [hlow hlt] at h
      simp at h
    · rcases Nat.lt_or_ge r.status_code 400 with h4 | h4
      · exact ⟨hge, h4⟩
      · rcases Nat.lt_or_ge r.status_code 500 with h5 | h5
        · by_cases ha : r.status_code = 401 ∨ r.status_code = 403
          · rw [hauth ha] at h
            simp at h
          · push_neg at ha
            rw [hclient h4 h5 ha.1 ha.2] at h
            simp at h
        · rw [hserver h5] at h
          simp at h
  · rintro ⟨h2, h4⟩
    rw [makeGetRequest_success retry_on_429 params r [] h2 h4]

/-- C4: for every save, update-location, or delete call, an ordinary HTTP
failure status (≥ 400, other than 429) yields a returned `(success, ...)`
pair with `success = false` rather than a raised error, and the only errors
these operations ever raise are rate-limit errors (`noMoreResponses` is the
model artifact for an exhausted scripted stream): in particular raised errors
are confined to the rate-limiting (and authentication) kinds the claim
reserves them for. -/
theorem post_like_requests_return_tuples :
    (∀ (retry_on_429 : Bool) (payload : PostRequest) (r : PostHttpResponse)
       (rest : List PostHttpResponse), 400 ≤ r.status_code → r.status_code ≠ 429 →
      makePostRequest retry_on_429 payload (r :: rest) =
        (.ok (false, none), [.postRequest payload])) ∧
    (∀ (retry_on_429 : Bool) (payload : DeleteRequest) (r : DeleteHttpResponse)
       (rest : List DeleteHttpResponse), 400 ≤ r.status_code → r.status_code ≠ 429 →
      makeDeleteRequest retry_on_429 payload (r :: rest) =
        (.ok (false, none), [.deleteRequest payload])) ∧
    (∀ (retry_on_429 : Bool) (payload : UpdateRequest) (r : HttpResponse)
       (rest : List HttpResponse), 400 ≤ r.status_code → r.status_code ≠ 429 →
      makeUpdateRequest retry_on_429 payload (r :: rest) =
        (.ok (false, { success := false,
                       message := some ("Update failed: " ++ toString r.status_code) }),
         [.updateRequest payload])) ∧
    (∀ (retry_on_429 : Bool) (payload : PostRequest) (responses : List PostHttpResponse)
       (e : ReadwiseExc), (makePostRequest retry_on_429 payload responses).1 = .error e →
      (∃ s b ra, e = .rateLimitError s b ra) ∨ e = .noMoreResponses) ∧
    (∀ (retry_on_429 : Bool) (payload : DeleteRequest) (responses : List DeleteHttpResponse)
       (e : ReadwiseExc), (makeDeleteRequest retry_on_429 payload responses).1 = .error e →
      (∃ s b ra, e = .rateLimitError s b ra) ∨ e = .noMoreResponses) ∧
    (∀ (retry_on_429 : Bool) (payload : UpdateRequest) (responses : List HttpResponse)
       (e : ReadwiseExc), (makeUpdateRequest retry_on_429 payload responses).1 = .error e →
      (∃ s b ra, e = .rateLimitError s b ra) ∨ e = .noMoreResponses) := by
  refine ⟨?_, ?_, ?_, ?_, ?_, ?_⟩
  · intro retry_on_429 payload r rest h400 h429
    simp only [makePostRequest]
    rw [if_neg h429, if_neg (by omega : ¬ (r.status_code = 200 ∨ r.status_code = 201))]
  · intro retry_on_429 payload r rest h400 h429
    simp only [makeDeleteRequest]
    rw [if_neg h429, if_neg (by omega : ¬ (r.status_code = 200 ∨ r.status_code = 204))]
  · intro retry_on_429 payload r rest h400 h429
    simp only [makeUpdateRequest]
    rw [if_neg h429, if_neg (by omega : ¬ r.status_code = 200)]
  · intro retry_on_429 payload responses
    induction responses with
    | nil =>
      intro e h
      simp [makePostRequest] at h
      exact Or.inr h.symm
    | cons r rest ih =>
      intro e h
      simp only [makePostRequest] at h
      split at h
      · split at h
        · exact ih e h
        · simp only [Prod.fst] at h
          cases h
          exact Or.inl ⟨_, _, _, rfl⟩
      · split at h
        · split at h <;> simp at h
        · simp at h
  · intro retry_on_429 payload responses
    induction responses with
    | nil =>
      intro e h
      simp [makeDeleteRequest] at h
      exact Or.inr h.symm
    | cons r rest ih =>
      intro e h
      simp only [makeDeleteRequest] at h
      split at h
      · split at h
        · exact ih e h
        · simp only [Prod.fst] at h
          cases h
          exact Or.inl ⟨_, _, _, rfl⟩
      · split at h
        · split at h
          · simp at h
          · split at h <;> simp at h
        · simp at h
  · intro retry_on_429 payload responses
    induction responses with
    | nil =>
      intro e h
      simp [makeUpdateRequest] at h
      exact Or.inr h.symm
    | cons r rest ih =>
      intro e h
      simp only [makeUpdateRequest] at h
      split at h
      · split at h
        · exact ih e h
        · simp only [Prod.fst] at h
          cases h
          exact Or.inl ⟨_, _, _, rfl⟩
      · split at h <;> simp at h

/-- C8 counterexample: `shortlist` is in the listing location enum yet
`save_document` rejects it with a validation error before issuing any
request. -/
theorem save_document_shortlist_counterexample :
    locationAllowed "shortlist" = true ∧
    saveDocument { url := some "https://example.com", location := some "shortlist" }
        false [] =
      (.error (.valueError ("Parameter location cannot be of value " ++ "shortlist")), []) := by
  exact ⟨rfl, rfl⟩

/-- C8 (amended): for every call of `save_document` with a provided
(non-empty) location argument, the location is validated against
{new, later, archive, feed} — a strictly smaller enum than listing's, which
also contains `shortlist`: every value in the smaller set is accepted and the
request is issued, and every provided value outside it fails with a
validation error before any request is sent. -/
theorem save_document_location_validation
    (a : SaveDocumentArgs) (loc u : String) (retry_on_429 : Bool)
    (responses : List PostHttpResponse)
    (hloc : a.location = some loc) (hne : loc ≠ "")
    (hurl : a.url = some u) (hune : u ≠ "")
    (hhtml : a.html = none) (hclean : a.should_clean_html = false)
    (hcat : a.category = none) :
    (saveLocationAllowed loc = true →
      saveDocument a retry_on_429 responses =
        makePostRequest retry_on_429
          { url := u, title := a.title, author := a.author, summary := a.summary,
            published_date := a.published_date, image_url := a.image_url,
            location := some loc, saved_using := a.saved_using, tags := a.tags }
          responses) ∧
    (saveLocationAllowed loc = false →
      saveDocument a retry_on_429 responses =
        (.error (.valueError ("Parameter location cannot be of value " ++ loc)), [])) := by
  constructor
  · intro hall
    simp [saveDocument, hloc, hne, hurl, hune, hhtml, hclean, hcat, truthyStr, hall]
  · intro hall
    simp [saveDocument, hloc, hne, hurl, hune, hhtml, hclean, hcat, truthyStr, hall]

/-! ### Concrete witnesses -/

/-- A concrete document for witnesses; all optional fields absent. -/
def sampleDoc (docId : String) : Document :=
  { id := docId, url := "https://example.com/" ++ docId, title := none, author := none,
    source := none, category := "article", location := some "new", tags := none,
    site_name := none, word_count := none, created_at := "", updated_at := "",
    notes := none, published_date := none, summary := none, image_url := none,
    content := none, source_url := none, parent_id := none, saved_at := "",
    last_moved_at := "", reading_progress := none }

/-- First page of a two-page listing: carries a continuation cursor. -/
def page1 : GetResponse :=
  { count := 1, next_page_cursor := some "c1", results := [sampleDoc "a"] }

/-- Second and final page: no continuation cursor. -/
def page2 : GetResponse :=
  { count := 1, next_page_cursor := none, results := [sampleDoc "b"] }

/-- A server serving `page1` first and `page2` at cursor `c1`. -/
def chainServer : GetParams → List GetHttpResponse :=
  fun p => if p.pageCursor = some "c1" then [okPage page2] else [okPage page1]

theorem chainServer_chain : PageChain chainServer {} [page1, page2] :=
  PageChain.step {} page1 [] [page2] rfl rfl
    (PageChain.last _ page2 [] rfl rfl)

theorem get_documents_auto_pagination_witness :
    ∃ evs, getDocuments {} false chainServer 2 =
        (.ok (([page1, page2].map GetResponse.results).flatten), evs) ∧
      evs.length = [page1, page2].length ∧ ∀ e ∈ evs, ∃ q, e = Event.getRequest q :=
  get_documents_auto_pagination {} false chainServer 2 [page1, page2] {}
    rfl rfl chainServer_chain (by decide)

/-- A single page that reports a continuation cursor. -/
def cursorPage : GetResponse :=
  { count := 1, next_page_cursor := some "more", results := [sampleDoc "a"] }

/-- A server always answering with `cursorPage`. -/
def limitServer : GetParams → List GetHttpResponse :=
  fun _ => [okPage cursorPage]

theorem get_documents_with_limit_single_page_witness :
    getDocuments { limit := some 5 } false limitServer 0 =
      (.ok cursorPage.results, [.getRequest { limit := some 5 }]) ∧
    ∃ docs evs, getDocuments { limit := some 5 } false limitServer 0 = (.ok docs, evs) ∧
      (docs.length : Int) ≤ 5 :=
  ⟨(get_documents_with_limit_single_page { limit := some 5 } 5 false limitServer 0
      { limit := some 5 } (okPage cursorPage) [] rfl (by decide) (by decide) rfl rfl
      (by decide) (by decide)).1,
   (get_documents_with_limit_single_page { limit := some 5 } 5 false limitServer 0
      { limit := some 5 } (okPage cursorPage) [] rfl (by decide) (by decide) rfl rfl
      (by decide) (by decide)).2 (by decide)⟩

theorem get_documents_invalid_limit_witness :
    ∃ msg, getDocuments { limit := some 0 } false (fun _ => []) 0 =
      (.error (.valueError msg), []) :=
  get_documents_invalid_limit { limit := some 0 } 0 false (fun _ => []) 0 rfl
    (Or.inl (by decide))

/-- The page served for a by-id lookup: count 1, one result. -/
def pageById : GetResponse :=
  { count := 1, next_page_cursor := none, results := [sampleDoc "a"] }

/-- A server always answering with `pageById`. -/
def byIdServer : GetParams → List GetHttpResponse :=
  fun _ => [okPage pageById]

theorem get_document_by_id_count_discipline_witness :
    ∃ d, pageById.results = [d] ∧
      getDocumentById "a" false byIdServer = (.ok (some d), [.getRequest { id := some "a" }]) :=
  (get_document_by_id_count_discipline "a" false byIdServer pageById [] rfl
    (by decide)).1 (by decide)

theorem get_document_by_id_indexing_witness :
    (getDocumentById "a" false byIdServer).1 ≠ .error .indexError :=
  get_document_by_id_indexing.1 "a" false byIdServer pageById [] rfl (by decide)

theorem iter_documents_matches_get_documents_witness :
    ∃ docs evs evs2,
      iterDocuments {} false chainServer 2 = (.ok (), docs, evs) ∧
      getDocuments (iterToGetArgs {}) false chainServer 2 = (.ok docs, evs2) :=
  iter_documents_matches_get_documents {} false chainServer 2 [page1, page2] {}
    rfl chainServer_chain (by decide)

theorem rate_limit_handling_witness :
    makeGetRequest true {}
        [{ status_code := 429, retry_after_header := some 1, text := "t",
           body := emptyPage }, okPage emptyPage] =
      ((makeGetRequest true {} [okPage emptyPage]).1,
       .getRequest {} :: .sleep 1 :: (makeGetRequest true {} [okPage emptyPage]).2) ∧
    makeGetRequest false {}
        [{ status_code := 429, retry_after_header := some 1, text := "t",
           body := emptyPage }] =
      (.error (.rateLimitError 429 "t" (some 1)), [.getRequest {}]) :=
  ⟨(rate_limit_handling 1 (by decide)).1 {} emptyPage "t" [okPage emptyPage],
   (rate_limit_handling 1 (by decide)).2.1 false {} emptyPage "t" (some 1) [] (Or.inl rfl)⟩

theorem get_request_status_dispatch_witness :
    makeGetRequest false {}
        [{ status_code := 503, retry_after_header := none, text := "boom",
           body := emptyPage }] =
      (.error (.serverError 503 "boom"), [.getRequest {}]) ∧
    makeGetRequest false {}
        [{ status_code := 401, retry_after_header := none, text := "denied",
           body := emptyPage }] =
      (.error (.authenticationError 401 "denied"), [.getRequest {}]) :=
  ⟨(get_request_status_dispatch false {}
      { status_code := 503, retry_after_header := none, text := "boom", body := emptyPage }
      (by decide)).1 (by decide),
   (get_request_status_dispatch false {}
      { status_code := 401, retry_after_header := none, text := "denied", body := emptyPage }
      (by decide)).2.1 (Or.inl rfl)⟩

theorem post_like_requests_return_tuples_witness :
    makePostRequest false { url := "https://example.com" }
        [{ status_code := 404, retry_after_header := none, text := "", body := none }] =
      (.ok (false, none), [.postRequest { url := "https://example.com" }]) ∧
    makeDeleteRequest false { id := "d1" }
        [{ status_code := 404, retry_after_header := none, text := "", body := none }] =
      (.ok (false, none), [.deleteRequest { id := "d1" }]) ∧
    makeUpdateRequest false { id := "d1", location := "later" }
        [{ status_code := 404, retry_after_header := none, text := "" }] =
      (.ok (false, { success := false,
                     message := some ("Update failed: " ++ toString 404) }),
       [.updateRequest { id := "d1", location := "later" }]) ∧
    ((∃ s b ra, ReadwiseExc.rateLimitError 429 "" none = .rateLimitError s b ra) ∨
      ReadwiseExc.rateLimitError 429 "" none = .noMoreResponses) :=
  ⟨post_like_requests_return_tuples.1 false { url := "https://example.com" }
      { status_code := 404, retry_after_header := none, text := "", body := none } []
      (by decide) (by decide),
   post_like_requests_return_tuples.2.1 false { id := "d1" }
      { status_code := 404, retry_after_header := none, text := "", body := none } []
      (by decide) (by decide),
   post_like_requests_return_tuples.2.2.1 false { id := "d1", location := "later" }
      { status_code := 404, retry_after_header := none, text := "" } []
      (by decide) (by decide),
   post_like_requests_return_tuples.2.2.2.1 false { url := "https://example.com" }
      [{ status_code := 429, retry_after_header := none, text := "", body := none }]
      (.rateLimitError 429 "" none) rfl⟩

theorem save_document_location_validation_witness :
    saveDocument { url := some "https://example.com", location := some "later" } false [] =
      makePostRequest false { url := "https://example.com", location := some "later" } [] ∧
    saveDocument { url := some "https://example.com", location := some "outbox" } false [] =
      (.error (.valueError ("Parameter location cannot be of value " ++ "outbox")), []) :=
  ⟨(save_document_location_validation
      { url := some "https://example.com", location := some "later" } "later"
      "https://example.com" false [] rfl (by decide) rfl (by decide) rfl rfl rfl).1 rfl,
   (save_document_location_validation
      { url := some "https://example.com", location := some "outbox" } "outbox"
      "https://example.com" false [] rfl (by decide) rfl (by decide) rfl rfl rfl).2 rfl⟩

end Readwise
